import Mathlib

/-!
Verification of the MCGPU simulation driver (`src/Metropolis/Simulation.cpp`).

The driver orchestrates a Metropolis Monte Carlo step loop over an abstract
`Box` and two interchangeable energy backends.  Everything the driver consumes
(the box factory, the energy kernels, the molecule selection/perturbation/
rollback operations, the shared random source, and the math-library `exp`) is
external to the translation unit, so those collaborators are modelled as
parameters; the driver's own logic is translated line by line.

Energies are modelled as ℚ (the code's `Real` is a floating-point alias; the
claims verified here concern control flow and exact bookkeeping identities,
not rounding).
-/

namespace MCGPU

/-- The fields of `Environment` the driver reads (`Simulation.cpp` reads
`temp`, `randomseed` and `numOfMolecules`). -/
structure Environment where
  temp : ℚ
  randomseed : Int
  numOfMolecules : Int
deriving DecidableEq

/-- `SimulationArgs`: the run configuration handed to the constructor.
`parallelMode` models `simulationMode == SimulationMode::Parallel`. -/
structure SimulationArgs where
  simulationName : String
  stepCount : Int
  statusInterval : Int
  stateInterval : Int
  parallelMode : Bool
deriving DecidableEq

/-- The shared seeded random source (`seed` / `randomReal` from the external
`MathLibrary`), modelled as explicit state of type `ρ`. -/
structure RandomSource (ρ : Type) where
  seed : Int → ρ
  randomReal : ρ → ℚ × ρ

/-- One energy backend (`SerialCalcs` or `ParallelCalcs`): pure functions of
the box state `σ`, per the backend contract. -/
structure EnergyBackend (σ : Type) where
  calcSystemEnergy : σ → ℚ
  calcMolecularEnergyContribution : σ → Int → ℚ

/-- The `Box` operations the driver invokes.  `chooseMolecule` and
`changeMolecule` are stochastic, drawing from the shared random source;
`rollback` is deterministic.  `environment` is the `box->environment`
accessor. -/
structure BoxOps (σ ρ : Type) where
  environment : σ → Environment
  chooseMolecule : σ → ρ → Int × ρ
  changeMolecule : Int → σ → ρ → σ × ρ
  rollback : Int → σ → σ

/-- Driver-local mutable state of `Simulation::run`: the box, the random
source, the running energy (`oldEnergy`) and the accept/reject counters. -/
structure RunState (σ ρ : Type) where
  box : σ
  rng : ρ
  oldEnergy : ℚ
  accepted : Nat
  rejected : Nat

/-- Lines 148-166 of `Simulation.cpp`: the Metropolis accept/reject decision.
Downhill (`newEnergyCont < oldEnergyCont`) accepts without touching the
random source; otherwise `x = exp(-(newEnergyCont - oldEnergyCont) / kT)` is
compared with one fresh draw, accepting iff `x >= randomReal(0.0, 1.0)`.
Returns the decision and the random-source state after it. -/
def metropolisDecision {ρ : Type} (R : RandomSource ρ) (expFn : ℚ → ℚ)
    (kT oldEnergyCont newEnergyCont : ℚ) (rng : ρ) : Bool × ρ :=
  if newEnergyCont < oldEnergyCont then
    (true, rng)
  else
    let x := expFn (-(newEnergyCont - oldEnergyCont) / kT)
    let dr := R.randomReal rng
    (decide (dr.1 ≤ x), dr.2)

/-- The outcome of one Monte Carlo step (lines 126-178): the updated driver
state plus the step's observables (decision, chosen index, the two energy
contributions, and the box as it stood after `changeMolecule`). -/
structure StepOutcome (σ ρ : Type) where
  state : RunState σ ρ
  accept : Bool
  changeIdx : Int
  oldEnergyCont : ℚ
  newEnergyCont : ℚ
  boxAfterChange : σ

/-- Lines 126-178 of `Simulation.cpp`, one loop iteration's simulation work:
choose a molecule, record its energy contribution, perturb it, record the new
contribution, decide via `metropolisDecision`, then either commit
(`accepted++; oldEnergy += newEnergyCont - oldEnergyCont`) or roll back
(`rejected++; box->rollback(changeIdx)`). -/
def mcStepUpdate {σ ρ : Type} (B : EnergyBackend σ) (O : BoxOps σ ρ)
    (R : RandomSource ρ) (expFn : ℚ → ℚ) (kT : ℚ) (s : RunState σ ρ) :
    StepOutcome σ ρ :=
  let c := O.chooseMolecule s.box s.rng
  let changeIdx := c.1
  let oldEnergyCont := B.calcMolecularEnergyContribution s.box changeIdx
  let m := O.changeMolecule changeIdx s.box c.2
  let newEnergyCont := B.calcMolecularEnergyContribution m.1 changeIdx
  let d := metropolisDecision R expFn kT oldEnergyCont newEnergyCont m.2
  if d.1 then
    { state := { box := m.1, rng := d.2,
                 oldEnergy := s.oldEnergy + (newEnergyCont - oldEnergyCont),
                 accepted := s.accepted + 1, rejected := s.rejected },
      accept := true, changeIdx := changeIdx,
      oldEnergyCont := oldEnergyCont, newEnergyCont := newEnergyCont,
      boxAfterChange := m.1 }
  else
    { state := { box := O.rollback changeIdx m.1, rng := d.2,
                 oldEnergy := s.oldEnergy,
                 accepted := s.accepted, rejected := s.rejected + 1 },
      accept := false, changeIdx := changeIdx,
      oldEnergyCont := oldEnergyCont, newEnergyCont := newEnergyCont,
      boxAfterChange := m.1 }

/-- Line 119 of `Simulation.cpp`: the mid-loop checkpoint condition
`args.stateInterval > 0 && move > stepStart &&
(move - stepStart) % args.stateInterval == 0`.  (C++ `%` truncates toward
zero; on the domain the short-circuit guards leave reachable — positive
dividend, positive divisor — it coincides with `Int.emod` used here, and both
conjunctions are false everywhere else.) -/
def midCheckpointCond (stateInterval move stepStart : Int) : Bool :=
  stateInterval > 0 && move > stepStart && (move - stepStart) % stateInterval == 0

/-- Per-iteration trace record: the loop counter `move`, whether the
iteration wrote a mid-loop state file, and the accept/reject decision. -/
structure StepTrace where
  move : Int
  savedState : Bool
  accept : Bool
deriving DecidableEq

/-- Lines 111-179 of `Simulation.cpp`: the step loop
`for (int move = stepStart; move < stop; move++)` with
`stop = stepStart + simSteps`.  Returns the final driver state and the
per-iteration trace. -/
def runLoop {σ ρ : Type} (B : EnergyBackend σ) (O : BoxOps σ ρ)
    (R : RandomSource ρ) (expFn : ℚ → ℚ) (kT : ℚ)
    (stateInterval stepStart stop : Int) (move : Int) (s : RunState σ ρ) :
    RunState σ ρ × List StepTrace :=
  if h : move < stop then
    let saved := midCheckpointCond stateInterval move stepStart
    let r := mcStepUpdate B O R expFn kT s
    let rest := runLoop B O R expFn kT stateInterval stepStart stop (move + 1) r.state
    (rest.1, { move := move, savedState := saved, accept := r.accept } :: rest.2)
  else
    (s, [])
termination_by (stop - move).toNat
decreasing_by omega

/-- `RESULTS_FILE_DEFAULT` (line 29): base name for results/coordinate files
when no simulation name was supplied. -/
def RESULTS_FILE_DEFAULT : String := "run"

/-- Lines 101-109: the base name for state files — the simulation name, or
`"untitled"` when the name is empty. -/
def baseStateFile (simulationName : String) : String :=
  "" ++ (if !simulationName.isEmpty then simulationName else "untitled")

/-- `Simulation::saveState` (lines 236-252): the state-file path it writes,
`<base>_<step>.state`. -/
def saveStateFileName (baseFileName : String) (simStep : Int) : String :=
  baseFileName ++ "_" ++ toString simStep ++ ".state"

/-- Lines 200-205: the results-file name, `<name>.results` with default base
`RESULTS_FILE_DEFAULT`. -/
def resultsName (simulationName : String) : String :=
  (if simulationName.isEmpty then RESULTS_FILE_DEFAULT else simulationName)
    ++ ".results"

/-- `Simulation::writePDB` (lines 254-262): the coordinate-file name,
`<name>.pdb` with default base `RESULTS_FILE_DEFAULT`. -/
def pdbName (simulationName : String) : String :=
  (if simulationName.isEmpty then RESULTS_FILE_DEFAULT else simulationName)
    ++ ".pdb"

/-- Line 78: `kT = kBoltz * enviro->temp`, computed once before the loop.
`kB` stands for the external constant `kBoltz`. -/
def runKT (kB : ℚ) (enviro : Environment) : ℚ :=
  kB * enviro.temp

/-- The observables of `Simulation::run` needed by the claims: final driver
state, per-step trace, the terminal step index printed at line 184, the final
energy, the divisor `accepted + rejected` that lines 198/229 divide into with
no zero guard, the optional final state file (lines 188-191), and the three
output file names. -/
structure RunResult (σ ρ : Type) where
  final : RunState σ ρ
  trace : List StepTrace
  terminalStep : Int
  finalEnergy : ℚ
  acceptanceDivisor : Int
  finalStateFile : Option String
  resultsFileName : String
  pdbFileName : String
  stateBaseName : String

/-- `Simulation::run` (lines 69-234): computes `kT` once, evaluates the
baseline system energy (the local `oldEnergy` starts at `0`, so the
`if (oldEnergy == 0)` recomputation always fires), fixes the state-file base
name, runs the step loop from `stepStart` to `stepStart + simSteps`, then
reports: terminal step, final energy, the unguarded acceptance-ratio divisor,
the final state save (performed iff `stateInterval >= 0`), and the output
file names. -/
def simulationRun {σ ρ : Type} (B : EnergyBackend σ) (O : BoxOps σ ρ)
    (R : RandomSource ρ) (expFn : ℚ → ℚ) (kB : ℚ) (args : SimulationArgs)
    (stepStart simSteps : Int) (box0 : σ) (rng0 : ρ) : RunResult σ ρ :=
  let enviro := O.environment box0
  let kT := runKT kB enviro
  let oldEnergy0 : ℚ := 0
  let oldEnergy1 := if oldEnergy0 = 0 then B.calcSystemEnergy box0 else oldEnergy0
  let base := baseStateFile args.simulationName
  let init : RunState σ ρ :=
    { box := box0, rng := rng0, oldEnergy := oldEnergy1,
      accepted := 0, rejected := 0 }
  let lr := runLoop B O R expFn kT args.stateInterval stepStart
    (stepStart + simSteps) stepStart init
  { final := lr.1
    trace := lr.2
    terminalStep := stepStart + simSteps
    finalEnergy := lr.1.oldEnergy
    acceptanceDivisor := (lr.1.accepted : Int) + (lr.1.rejected : Int)
    finalStateFile :=
      if args.stateInterval ≥ 0 then
        some (saveStateFileName base (stepStart + simSteps))
      else
        none
    resultsFileName := resultsName args.simulationName
    pdbFileName := pdbName args.simulationName
    stateBaseName := base }

/-- What a backend's `createBox(filePath, fileType, &stepStart, &simSteps)`
delivers: the box (or null) and the values written through the two out
pointers. -/
structure FactoryOutput (σ : Type) where
  box : Option σ
  stepStart : Int
  simSteps : Int

/-- Driver state established by a successful construction. -/
structure InitResult (σ ρ : Type) where
  box : σ
  rng : ρ
  stepStart : Int
  simSteps : Int

/-- `Simulation::Simulation` (lines 33-57): pick the factory by mode; if the
box is null, terminate fatally with the diagnostic (modelled as
`Except.error`); otherwise seed the shared random source from
`box->environment->randomseed`, and let a strictly positive
`args.stepCount` override the factory's `simSteps`. -/
def simulationInit {σ ρ : Type} (O : BoxOps σ ρ) (R : RandomSource ρ)
    (args : SimulationArgs) (parallelFactory serialFactory : FactoryOutput σ) :
    Except String (InitResult σ ρ) :=
  let f := if args.parallelMode then parallelFactory else serialFactory
  match f.box with
  | none => Except.error "Error: Unable to initialize simulation Box"
  | some b =>
      Except.ok
        { box := b
          rng := R.seed (O.environment b).randomseed
          stepStart := f.stepStart
          simSteps := if args.stepCount > 0 then args.stepCount else f.simSteps }

/-! Concrete instantiations of the abstract collaborators, used to exercise
the driver's definitions on closed inputs. -/

/-- A random source over trivial state whose draws are all `1/2`. -/
def unitRandomSource : RandomSource Unit :=
  { seed := fun _ => (), randomReal := fun r => (1/2, r) }

/-- A backend over box state ℚ whose energies are identically `0`. -/
def constBackend : EnergyBackend ℚ :=
  { calcSystemEnergy := fun _ => 0
    calcMolecularEnergyContribution := fun _ _ => 0 }

/-- Box operations over box state ℚ: selection always picks molecule `0`,
perturbation and rollback leave the box unchanged. -/
def idBoxOps : BoxOps ℚ Unit :=
  { environment := fun _ => { temp := 1, randomseed := 7, numOfMolecules := 3 }
    chooseMolecule := fun _ r => (0, r)
    changeMolecule := fun _ b r => (b, r)
    rollback := fun _ b => b }

/-- A stand-in for the math library's `exp`, constantly `1`. -/
def oneExp : ℚ → ℚ := fun _ => 1

/-- A sample run configuration. -/
def sampleArgs : SimulationArgs :=
  { simulationName := "", stepCount := 0, statusInterval := 0,
    stateInterval := 1, parallelMode := false }

/-- A sample initial driver state for the concrete instantiation. -/
def sampleState : RunState ℚ Unit :=
  { box := 0, rng := (), oldEnergy := 0, accepted := 0, rejected := 0 }

/-- A sample successful factory result over box state ℚ. -/
def sampleFactory : FactoryOutput ℚ :=
  { box := some 0, stepStart := 0, simSteps := 5 }

/-- The list of `n` consecutive integers starting at `move`. -/
def intRange (move : Int) (n : Nat) : List Int :=
  (List.range n).map (fun (k : Nat) => move + (k : Int))

/-! Helper lemmas about the step loop. -/

lemma intRange_succ (move : Int) (n : Nat) :
    intRange move (n + 1) = move :: intRange (move + 1) n := by
  unfold intRange
  rw [List.range_succ_eq_map, List.map_cons, List.map_map]
  refine congrArg₂ List.cons (by simp) ?_
  congr 1
  funext k
  simp only [Function.comp_apply]
  push_cast
  ring

/-- The loop counters of `runLoop`'s trace are exactly
`move, move+1, ..., stop-1`. -/
lemma runLoop_trace_moves {σ ρ : Type} (B : EnergyBackend σ) (O : BoxOps σ ρ)
    (R : RandomSource ρ) (expFn : ℚ → ℚ) (kT : ℚ)
    (stateInterval stepStart stop : Int) (move : Int) (s : RunState σ ρ) :
    (runLoop B O R expFn kT stateInterval stepStart stop move s).2.map
        (fun e => e.move) =
      intRange move (stop - move).toNat := by
  generalize hn : (stop - move).toNat = n
  induction n generalizing move s with
  | zero =>
    have h : ¬ move < stop := by omega
    rw [runLoop]
    simp [h, intRange]
  | succ n ih =>
    have h : move < stop := by omega
    have hn' : (stop - (move + 1)).toNat = n := by omega
    rw [runLoop]
    simp only [h, dif_pos, List.map_cons]
    rw [intRange_succ]
    exact congrArg₂ List.cons rfl
      (ih (move + 1) (mcStepUpdate B O R expFn kT s).state hn')

/-- One Monte Carlo step preserves the invariant "the running `oldEnergy`
equals the backend's total system energy of the current box", assuming the
backend/box contracts: the system-energy delta of a perturbation equals the
delta of the perturbed molecule's energy contribution, and rollback undoes
the perturbation exactly. -/
lemma mcStepUpdate_preserves_energy {σ ρ : Type} (B : EnergyBackend σ)
    (O : BoxOps σ ρ) (R : RandomSource ρ) (expFn : ℚ → ℚ) (kT : ℚ)
    (hΔ : ∀ (b : σ) (i : Int) (r : ρ),
      B.calcSystemEnergy (O.changeMolecule i b r).1 =
        B.calcSystemEnergy b +
          (B.calcMolecularEnergyContribution (O.changeMolecule i b r).1 i -
            B.calcMolecularEnergyContribution b i))
    (hRb : ∀ (i : Int) (b : σ) (r : ρ),
      O.rollback i (O.changeMolecule i b r).1 = b)
    (s : RunState σ ρ) (hs : s.oldEnergy = B.calcSystemEnergy s.box) :
    (mcStepUpdate B O R expFn kT s).state.oldEnergy =
      B.calcSystemEnergy (mcStepUpdate B O R expFn kT s).state.box := by
  simp only [mcStepUpdate]
  split
  · simp only
    rw [hΔ s.box (O.chooseMolecule s.box s.rng).1 (O.chooseMolecule s.box s.rng).2,
      hs]
  · simp only
    rw [hRb]
    exact hs

/-- The step loop preserves the energy-bookkeeping invariant, assuming the
backend/box contracts of `mcStepUpdate_preserves_energy`. -/
lemma runLoop_energy_invariant {σ ρ : Type} (B : EnergyBackend σ)
    (O : BoxOps σ ρ) (R : RandomSource ρ) (expFn : ℚ → ℚ) (kT : ℚ)
    (stateInterval stepStart stop : Int)
    (hΔ : ∀ (b : σ) (i : Int) (r : ρ),
      B.calcSystemEnergy (O.changeMolecule i b r).1 =
        B.calcSystemEnergy b +
          (B.calcMolecularEnergyContribution (O.changeMolecule i b r).1 i -
            B.calcMolecularEnergyContribution b i))
    (hRb : ∀ (i : Int) (b : σ) (r : ρ),
      O.rollback i (O.changeMolecule i b r).1 = b)
    (move : Int) (s : RunState σ ρ)
    (hs : s.oldEnergy = B.calcSystemEnergy s.box) :
    (runLoop B O R expFn kT stateInterval stepStart stop move s).1.oldEnergy =
      B.calcSystemEnergy
        (runLoop B O R expFn kT stateInterval stepStart stop move s).1.box := by
  generalize hn : (stop - move).toNat = n
  induction n generalizing move s with
  | zero =>
    have h : ¬ move < stop := by omega
    rw [runLoop, dif_neg h]
    exact hs
  | succ n ih =>
    have h : move < stop := by omega
    have hn' : (stop - (move + 1)).toNat = n := by omega
    rw [runLoop, dif_pos h]
    exact ih (move + 1) (mcStepUpdate B O R expFn kT s).state
      (mcStepUpdate_preserves_energy B O R expFn kT hΔ hRb s hs) hn'

/-- Field-by-field description of `simulationRun` with the always-true
`if (oldEnergy == 0)` baseline recomputation discharged. -/
lemma simulationRun_eq {σ ρ : Type} (B : EnergyBackend σ) (O : BoxOps σ ρ)
    (R : RandomSource ρ) (expFn : ℚ → ℚ) (kB : ℚ) (args : SimulationArgs)
    (stepStart simSteps : Int) (box0 : σ) (rng0 : ρ) :
    simulationRun B O R expFn kB args stepStart simSteps box0 rng0 =
      { final := (runLoop B O R expFn (runKT kB (O.environment box0))
            args.stateInterval stepStart (stepStart + simSteps) stepStart
            { box := box0, rng := rng0, oldEnergy := B.calcSystemEnergy box0,
              accepted := 0, rejected := 0 }).1
        trace := (runLoop B O R expFn (runKT kB (O.environment box0))
            args.stateInterval stepStart (stepStart + simSteps) stepStart
            { box := box0, rng := rng0, oldEnergy := B.calcSystemEnergy box0,
              accepted := 0, rejected := 0 }).2
        terminalStep := stepStart + simSteps
        finalEnergy := (runLoop B O R expFn (runKT kB (O.environment box0))
            args.stateInterval stepStart (stepStart + simSteps) stepStart
            { box := box0, rng := rng0, oldEnergy := B.calcSystemEnergy box0,
              accepted := 0, rejected := 0 }).1.oldEnergy
        acceptanceDivisor :=
          (((runLoop B O R expFn (runKT kB (O.environment box0))
              args.stateInterval stepStart (stepStart + simSteps) stepStart
              { box := box0, rng := rng0, oldEnergy := B.calcSystemEnergy box0,
                accepted := 0, rejected := 0 }).1.accepted : Int) +
            ((runLoop B O R expFn (runKT kB (O.environment box0))
              args.stateInterval stepStart (stepStart + simSteps) stepStart
              { box := box0, rng := rng0, oldEnergy := B.calcSystemEnergy box0,
                accepted := 0, rejected := 0 }).1.rejected : Int))
        finalStateFile :=
          if args.stateInterval ≥ 0 then
            some (saveStateFileName (baseStateFile args.simulationName)
              (stepStart + simSteps))
          else none
        resultsFileName := resultsName args.simulationName
        pdbFileName := pdbName args.simulationName
        stateBaseName := baseStateFile args.simulationName } := by
  simp [simulationRun]

/-! The claims. -/

/-- C1: for every Monte Carlo step, if the post-perturbation energy
contribution is strictly less than the pre-perturbation contribution, the
step is accepted unconditionally — for every random-source state, and
without consuming a draw. -/
theorem downhill_always_accepted {ρ : Type} (R : RandomSource ρ)
    (expFn : ℚ → ℚ) (kT oldEnergyCont newEnergyCont : ℚ) (rng : ρ)
    (h : newEnergyCont < oldEnergyCont) :
    (metropolisDecision R expFn kT oldEnergyCont newEnergyCont rng).1 = true ∧
      (metropolisDecision R expFn kT oldEnergyCont newEnergyCont rng).2 = rng := by
  simp [metropolisDecision, h]

theorem downhill_always_accepted_witness :
    (0 : ℚ) < 1 ∧
      ((metropolisDecision unitRandomSource oneExp 1 1 0 ()).1 = true ∧
        (metropolisDecision unitRandomSource oneExp 1 1 0 ()).2 = ()) :=
  ⟨by norm_num,
    downhill_always_accepted unitRandomSource oneExp 1 1 0 () (by norm_num)⟩

/-- C2: when `newEnergyCont >= oldEnergyCont`, the step is accepted iff the
Boltzmann factor `exp(-(newEnergyCont - oldEnergyCont) / kT)` is at least
one fresh draw from the shared source (which is advanced past exactly that
draw), where `kT` is `runKT kB enviro`, i.e. the Boltzmann constant times
the environment temperature, computed once before the loop. -/
theorem uphill_accept_iff_boltzmann_ge_draw {ρ : Type} (R : RandomSource ρ)
    (expFn : ℚ → ℚ) (kB : ℚ) (enviro : Environment)
    (oldEnergyCont newEnergyCont : ℚ) (rng : ρ)
    (h : oldEnergyCont ≤ newEnergyCont) :
    metropolisDecision R expFn (runKT kB enviro) oldEnergyCont newEnergyCont
        rng =
      (decide ((R.randomReal rng).1 ≤
          expFn (-(newEnergyCont - oldEnergyCont) / (kB * enviro.temp))),
        (R.randomReal rng).2) := by
  have h' : ¬ newEnergyCont < oldEnergyCont := not_lt.mpr h
  simp [metropolisDecision, runKT, h']

theorem uphill_accept_iff_boltzmann_ge_draw_witness :
    (0 : ℚ) ≤ 0 ∧
      metropolisDecision unitRandomSource oneExp
          (runKT 1 (idBoxOps.environment 0)) 0 0 () =
        (decide ((unitRandomSource.randomReal ()).1 ≤
            oneExp (-((0 : ℚ) - 0) / (1 * (idBoxOps.environment 0).temp))),
          (unitRandomSource.randomReal ()).2) :=
  ⟨le_refl 0,
    uphill_accept_iff_boltzmann_ge_draw unitRandomSource oneExp 1
      (idBoxOps.environment 0) 0 0 () (le_refl 0)⟩

/-- C3: per step, acceptance increments the accepted counter and adds
`newEnergyCont - oldEnergyCont` to the running energy, keeping the perturbed
box; rejection increments the rejected counter, leaves the running energy
unchanged, and rolls the perturbed molecule index back before the next
iteration; and, assuming the backend contribution/rollback contracts, the
tracked running energy equals the backend's total system energy at the
loop's step boundaries. -/
theorem step_bookkeeping_and_energy_tracking {σ ρ : Type}
    (B : EnergyBackend σ) (O : BoxOps σ ρ) (R : RandomSource ρ)
    (expFn : ℚ → ℚ) (kT : ℚ) (stateInterval stepStart stop move : Int)
    (s : RunState σ ρ)
    (hΔ : ∀ (b : σ) (i : Int) (r : ρ),
      B.calcSystemEnergy (O.changeMolecule i b r).1 =
        B.calcSystemEnergy b +
          (B.calcMolecularEnergyContribution (O.changeMolecule i b r).1 i -
            B.calcMolecularEnergyContribution b i))
    (hRb : ∀ (i : Int) (b : σ) (r : ρ),
      O.rollback i (O.changeMolecule i b r).1 = b)
    (hs : s.oldEnergy = B.calcSystemEnergy s.box) :
    ((mcStepUpdate B O R expFn kT s).state.accepted =
        (if (mcStepUpdate B O R expFn kT s).accept = true then s.accepted + 1
         else s.accepted) ∧
      (mcStepUpdate B O R expFn kT s).state.rejected =
        (if (mcStepUpdate B O R expFn kT s).accept = true then s.rejected
         else s.rejected + 1) ∧
      (mcStepUpdate B O R expFn kT s).state.oldEnergy =
        (if (mcStepUpdate B O R expFn kT s).accept = true then
          s.oldEnergy + ((mcStepUpdate B O R expFn kT s).newEnergyCont -
            (mcStepUpdate B O R expFn kT s).oldEnergyCont)
         else s.oldEnergy) ∧
      (mcStepUpdate B O R expFn kT s).state.box =
        (if (mcStepUpdate B O R expFn kT s).accept = true then
          (mcStepUpdate B O R expFn kT s).boxAfterChange
         else O.rollback (mcStepUpdate B O R expFn kT s).changeIdx
          (mcStepUpdate B O R expFn kT s).boxAfterChange)) ∧
    (runLoop B O R expFn kT stateInterval stepStart stop move s).1.oldEnergy =
      B.calcSystemEnergy
        (runLoop B O R expFn kT stateInterval stepStart stop move s).1.box := by
  constructor
  · simp only [mcStepUpdate]
    split <;> simp
  · exact runLoop_energy_invariant B O R expFn kT stateInterval stepStart stop
      hΔ hRb move s hs

theorem step_bookkeeping_and_energy_tracking_witness :
    sampleState.oldEnergy = constBackend.calcSystemEnergy sampleState.box ∧
    (((mcStepUpdate constBackend idBoxOps unitRandomSource oneExp 1
          sampleState).state.accepted =
        (if (mcStepUpdate constBackend idBoxOps unitRandomSource oneExp 1
              sampleState).accept = true then sampleState.accepted + 1
         else sampleState.accepted) ∧
      (mcStepUpdate constBackend idBoxOps unitRandomSource oneExp 1
          sampleState).state.rejected =
        (if (mcStepUpdate constBackend idBoxOps unitRandomSource oneExp 1
              sampleState).accept = true then sampleState.rejected
         else sampleState.rejected + 1) ∧
      (mcStepUpdate constBackend idBoxOps unitRandomSource oneExp 1
          sampleState).state.oldEnergy =
        (if (mcStepUpdate constBackend idBoxOps unitRandomSource oneExp 1
              sampleState).accept = true then
          sampleState.oldEnergy +
            ((mcStepUpdate constBackend idBoxOps unitRandomSource oneExp 1
                sampleState).newEnergyCont -
              (mcStepUpdate constBackend idBoxOps unitRandomSource oneExp 1
                sampleState).oldEnergyCont)
         else sampleState.oldEnergy) ∧
      (mcStepUpdate constBackend idBoxOps unitRandomSource oneExp 1
          sampleState).state.box =
        (if (mcStepUpdate constBackend idBoxOps unitRandomSource oneExp 1
              sampleState).accept = true then
          (mcStepUpdate constBackend idBoxOps unitRandomSource oneExp 1
            sampleState).boxAfterChange
         else idBoxOps.rollback
          (mcStepUpdate constBackend idBoxOps unitRandomSource oneExp 1
            sampleState).changeIdx
          (mcStepUpdate constBackend idBoxOps unitRandomSource oneExp 1
            sampleState).boxAfterChange)) ∧
    (runLoop constBackend idBoxOps unitRandomSource oneExp 1 1 0 2 0
        sampleState).1.oldEnergy =
      constBackend.calcSystemEnergy
        (runLoop constBackend idBoxOps unitRandomSource oneExp 1 1 0 2 0
          sampleState).1.box) :=
  ⟨rfl,
    step_bookkeeping_and_energy_tracking constBackend idBoxOps
      unitRandomSource oneExp 1 1 0 2 0 sampleState
      (by intro b i r; simp [constBackend, idBoxOps])
      (by intro i b r; rfl) rfl⟩

/-- C4: for `simSteps ≥ 0`, the step loop executes exactly `simSteps`
iterations, its step indices are `stepStart, ..., stepStart + simSteps - 1`,
and the terminal step index reported after the loop is
`stepStart + simSteps`. -/
theorem loop_runs_exactly_simSteps {σ ρ : Type} (B : EnergyBackend σ)
    (O : BoxOps σ ρ) (R : RandomSource ρ) (expFn : ℚ → ℚ) (kB : ℚ)
    (args : SimulationArgs) (stepStart simSteps : Int) (box0 : σ) (rng0 : ρ)
    (h : 0 ≤ simSteps) :
    (((simulationRun B O R expFn kB args stepStart simSteps box0
        rng0).trace.length : Int) = simSteps ∧
      (simulationRun B O R expFn kB args stepStart simSteps box0
        rng0).trace.map (fun e => e.move) = intRange stepStart simSteps.toNat ∧
      (simulationRun B O R expFn kB args stepStart simSteps box0
        rng0).terminalStep = stepStart + simSteps) := by
  simp only [simulationRun_eq]
  have hL := runLoop_trace_moves B O R expFn (runKT kB (O.environment box0))
    args.stateInterval stepStart (stepStart + simSteps) stepStart
    { box := box0, rng := rng0, oldEnergy := B.calcSystemEnergy box0,
      accepted := 0, rejected := 0 }
  rw [add_sub_cancel_left] at hL
  have hlen := congrArg List.length hL
  simp only [List.length_map, intRange, List.length_range] at hlen
  exact ⟨by rw [hlen]; omega, hL, trivial⟩

theorem loop_runs_exactly_simSteps_witness :
    (0 : Int) ≤ 2 ∧
      (((simulationRun constBackend idBoxOps unitRandomSource oneExp 1
          sampleArgs 0 2 0 ()).trace.length : Int) = 2 ∧
        (simulationRun constBackend idBoxOps unitRandomSource oneExp 1
          sampleArgs 0 2 0 ()).trace.map (fun e => e.move) =
          intRange 0 (2 : Int).toNat ∧
        (simulationRun constBackend idBoxOps unitRandomSource oneExp 1
          sampleArgs 0 2 0 ()).terminalStep = 0 + 2) :=
  ⟨by decide,
    loop_runs_exactly_simSteps constBackend idBoxOps unitRandomSource oneExp 1
      sampleArgs 0 2 0 () (by decide)⟩

/-- C5 (the claimed guard is absent): with `simSteps = 0` the loop body
never runs, both counters end at `0`, and the acceptance-ratio divisor
`accepted + rejected` that lines 198/229 divide into is `0` — the division
by zero is performed, there is no guard and no sentinel. -/
theorem zero_steps_zero_acceptance_divisor {σ ρ : Type} (B : EnergyBackend σ)
    (O : BoxOps σ ρ) (R : RandomSource ρ) (expFn : ℚ → ℚ) (kB : ℚ)
    (args : SimulationArgs) (stepStart : Int) (box0 : σ) (rng0 : ρ) :
    (simulationRun B O R expFn kB args stepStart 0 box0 rng0).final.accepted
        = 0 ∧
      (simulationRun B O R expFn kB args stepStart 0 box0 rng0).final.rejected
        = 0 ∧
      (simulationRun B O R expFn kB args stepStart 0 box0
        rng0).acceptanceDivisor = 0 := by
  simp only [simulationRun_eq]
  refine ⟨?_, ?_, ?_⟩ <;> (rw [runLoop]; simp)

/-- C6: the mid-loop checkpoint condition of line 119 holds exactly when the
configured state interval is strictly positive and the step's offset from
`stepStart` is a positive multiple of that interval. -/
theorem mid_checkpoint_iff_positive_multiple
    (stateInterval move stepStart : Int) :
    midCheckpointCond stateInterval move stepStart = true ↔
      (0 < stateInterval ∧
        ∃ k : Int, 0 < k ∧ move - stepStart = k * stateInterval) := by
  unfold midCheckpointCond
  simp only [Bool.and_eq_true, decide_eq_true_eq, beq_iff_eq, gt_iff_lt]
  constructor
  · rintro ⟨⟨h1, h2⟩, h3⟩
    refine ⟨h1, ?_⟩
    obtain ⟨k, hk⟩ := Int.dvd_of_emod_eq_zero h3
    refine ⟨k, ?_, by rw [hk, mul_comm]⟩
    rcases lt_trichotomy k 0 with hneg | hzero | hpos
    · exfalso
      have hneg2 : stateInterval * k < 0 := mul_neg_of_pos_of_neg h1 hneg
      have hpos2 : 0 < move - stepStart := by omega
      linarith [hk]
    · exfalso
      rw [hzero, mul_zero] at hk
      omega
    · exact hpos
  · rintro ⟨h1, k, hk, heq⟩
    have hmul : 0 < k * stateInterval := mul_pos hk h1
    refine ⟨⟨h1, by omega⟩, ?_⟩
    rw [heq]
    exact Int.mul_emod_left k stateInterval

/-- C7: after the loop, the final checkpoint is written iff the state
interval is non-negative, and its file name is the run's base name followed
by an underscore, the terminal step index `stepStart + simSteps`, and the
`.state` extension. -/
theorem final_checkpoint_iff_nonneg_interval {σ ρ : Type}
    (B : EnergyBackend σ) (O : BoxOps σ ρ) (R : RandomSource ρ)
    (expFn : ℚ → ℚ) (kB : ℚ) (args : SimulationArgs)
    (stepStart simSteps : Int) (box0 : σ) (rng0 : ρ) :
    (simulationRun B O R expFn kB args stepStart simSteps box0
        rng0).finalStateFile =
      (if 0 ≤ args.stateInterval then
        some (baseStateFile args.simulationName ++ "_" ++
          toString (stepStart + simSteps) ++ ".state")
      else none) :=
  rfl

/-- C8: at construction, a null box from the mode-selected factory is a
fatal diagnostic failure; otherwise the shared random source is seeded from
`box.environment.randomseed` and the factory's `simSteps` is replaced by
`args.stepCount` exactly when that override is strictly positive. -/
theorem init_fatal_on_null_box_and_step_override {σ ρ : Type}
    (O : BoxOps σ ρ) (R : RandomSource ρ) (args : SimulationArgs)
    (parallelFactory serialFactory : FactoryOutput σ) :
    ((if args.parallelMode then parallelFactory else serialFactory).box =
        none →
      simulationInit O R args parallelFactory serialFactory =
        Except.error "Error: Unable to initialize simulation Box") ∧
    (∀ b : σ,
      (if args.parallelMode then parallelFactory else serialFactory).box =
          some b →
      simulationInit O R args parallelFactory serialFactory =
        Except.ok
          { box := b
            rng := R.seed (O.environment b).randomseed
            stepStart :=
              (if args.parallelMode then parallelFactory
               else serialFactory).stepStart
            simSteps :=
              if args.stepCount > 0 then args.stepCount
              else (if args.parallelMode then parallelFactory
                else serialFactory).simSteps }) := by
  constructor
  · intro h
    simp only [simulationInit]
    rw [h]
  · intro b h
    simp only [simulationInit]
    rw [h]

theorem init_fatal_on_null_box_and_step_override_witness :
    (if sampleArgs.parallelMode then sampleFactory else sampleFactory).box =
        some 0 ∧
      simulationInit idBoxOps unitRandomSource sampleArgs sampleFactory
          sampleFactory =
        Except.ok
          { box := 0
            rng := unitRandomSource.seed (idBoxOps.environment 0).randomseed
            stepStart :=
              (if sampleArgs.parallelMode then sampleFactory
               else sampleFactory).stepStart
            simSteps :=
              if sampleArgs.stepCount > 0 then sampleArgs.stepCount
              else (if sampleArgs.parallelMode then sampleFactory
                else sampleFactory).simSteps } :=
  ⟨rfl,
    (init_fatal_on_null_box_and_step_override idBoxOps unitRandomSource
      sampleArgs sampleFactory sampleFactory).2 0 rfl⟩

/-- C9: for a fixed random-source state, fixed initial box and fixed
backend, two executions of the run produce identical accept/reject
sequences and identical final tracked energy. -/
theorem run_deterministic {σ ρ : Type} (B : EnergyBackend σ)
    (O : BoxOps σ ρ) (R : RandomSource ρ) (expFn : ℚ → ℚ) (kB : ℚ)
    (args : SimulationArgs) (stepStart simSteps : Int)
    (box1 box2 : σ) (rng1 rng2 : ρ)
    (hbox : box1 = box2) (hrng : rng1 = rng2) :
    (simulationRun B O R expFn kB args stepStart simSteps box1
        rng1).trace.map (fun e => e.accept) =
      (simulationRun B O R expFn kB args stepStart simSteps box2
        rng2).trace.map (fun e => e.accept) ∧
    (simulationRun B O R expFn kB args stepStart simSteps box1
        rng1).finalEnergy =
      (simulationRun B O R expFn kB args stepStart simSteps box2
        rng2).finalEnergy := by
  subst hbox hrng
  exact ⟨rfl, rfl⟩

theorem run_deterministic_witness :
    (0 : ℚ) = 0 ∧ () = () ∧
      ((simulationRun constBackend idBoxOps unitRandomSource oneExp 1
          sampleArgs 0 2 0 ()).trace.map (fun e => e.accept) =
        (simulationRun constBackend idBoxOps unitRandomSource oneExp 1
          sampleArgs 0 2 0 ()).trace.map (fun e => e.accept) ∧
      (simulationRun constBackend idBoxOps unitRandomSource oneExp 1
          sampleArgs 0 2 0 ()).finalEnergy =
        (simulationRun constBackend idBoxOps unitRandomSource oneExp 1
          sampleArgs 0 2 0 ()).finalEnergy) :=
  ⟨rfl, rfl,
    run_deterministic constBackend idBoxOps unitRandomSource oneExp 1
      sampleArgs 0 2 0 0 () () rfl rfl⟩

/-- C10: with an empty simulation name the default output base names
disagree — state files use base `"untitled"` (giving `untitled_<step>.state`)
while results and coordinate files use base `"run"` (giving `run.results`
and `run.pdb`). -/
theorem default_output_base_names_disagree :
    baseStateFile "" = "untitled" ∧
      resultsName "" = "run.results" ∧
      pdbName "" = "run.pdb" ∧
      saveStateFileName (baseStateFile "") 5 = "untitled_5.state" ∧
      baseStateFile "" ≠ RESULTS_FILE_DEFAULT := by
  refine ⟨rfl, rfl, rfl, rfl, ?_⟩
  decide

end MCGPU
